import Mathlib

/-!
Verification of the recidivism metric-calculation core of the
`pulse-data` repository.

The streaming combiners (`beam_utils.py`) are embedded directly from the
source.  The recidivism calculator itself (`calculator.py`) ships only its
test suite in this tree, so its functions are modelled from the natural
language specification (`spec.md`) and cross-checked against the concrete
test vectors in `calculator_test.py`.
-/

/- ## Calendar dates

A calendar date as a year/month/day triple, ordered lexicographically
(the order Python's `datetime.date` uses for valid dates). -/

structure DateYMD where
  year : ℕ
  month : ℕ
  day : ℕ
deriving DecidableEq, Repr

/-- Lexicographic order on dates: `a` is on or before `b`. -/
def DateYMD.onOrBefore (a b : DateYMD) : Prop :=
  a.year < b.year ∨
    (a.year = b.year ∧
      (a.month < b.month ∨ (a.month = b.month ∧ a.day ≤ b.day)))

/-- Strict lexicographic order on dates: `a` is strictly before `b`. -/
def DateYMD.before (a b : DateYMD) : Prop :=
  a.year < b.year ∨
    (a.year = b.year ∧
      (a.month < b.month ∨ (a.month = b.month ∧ a.day < b.day)))

instance (a b : DateYMD) : Decidable (DateYMD.onOrBefore a b) := by
  unfold DateYMD.onOrBefore; infer_instance

instance (a b : DateYMD) : Decidable (DateYMD.before a b) := by
  unfold DateYMD.before; infer_instance

/-- `d` plus `k` calendar years: the same month/day anniversary `k` years on. -/
def DateYMD.addYears (d : DateYMD) (k : ℕ) : DateYMD :=
  { d with year := d.year + k }

theorem DateYMD.onOrBefore_addYears (d : DateYMD) (k : ℕ) :
    d.onOrBefore (d.addYears k) := by
  unfold DateYMD.onOrBefore DateYMD.addYears
  dsimp only
  omega

theorem DateYMD.onOrBefore_trans {a b c : DateYMD}
    (hab : a.onOrBefore b) (hbc : b.onOrBefore c) : a.onOrBefore c := by
  unfold DateYMD.onOrBefore at *
  omega

theorem DateYMD.not_onOrBefore_of_before {a b : DateYMD}
    (h : DateYMD.before b a) : ¬ DateYMD.onOrBefore a b := by
  unfold DateYMD.before at h
  unfold DateYMD.onOrBefore
  omega

/- ## Streaming accumulators (`recidiviz/calculator/pipeline/utils/beam_utils.py`)

The average-style `CombineFn`s all share one accumulator algebra: a
`(sum of values, number of values)` pair.  Sums are modelled over `ℚ`
(Python numbers with exact arithmetic) and counts over `ℕ`. -/

/-- Accumulator of the average-style combiners: `(sum_of_values, number_of_values)`. -/
abbrev AvgAccumulator : Type := ℚ × ℕ

/-- Embeds `_add_input_for_average_metric`: unpack the accumulator, add the
input to the running sum and bump the count. -/
def _add_input_for_average_metric (accumulator : AvgAccumulator) (x : ℚ) :
    AvgAccumulator :=
  (accumulator.1 + x, accumulator.2 + 1)

/-- Embeds `_merge_accumulators_for_average_metric`.  The source line
`sums_of_values, numbers_of_values = zip(*accumulators)` raises a
`ValueError` when `accumulators` is empty (`zip()` of nothing cannot be
unpacked into two names); that failure is modelled as `none`.  On a
non-empty list it returns the pair of componentwise sums. -/
def _merge_accumulators_for_average_metric (accumulators : List AvgAccumulator) :
    Option AvgAccumulator :=
  match accumulators with
  | [] => none
  | _ :: _ =>
      some ((accumulators.map Prod.fst).sum, (accumulators.map Prod.snd).sum)

/-- A Python float result that is either an ordinary number or the `NaN`
sentinel produced by `float('NaN')`. -/
inductive PyFloat where
  | nan : PyFloat
  | val (q : ℚ) : PyFloat
deriving DecidableEq, Repr

namespace RecidivismRateFn

/-- Output dictionary of `RecidivismRateFn.extract_output`. -/
structure Output where
  total_releases : ℕ
  recidivated_releases : ℚ
  recidivism_rate : PyFloat
deriving DecidableEq, Repr

def create_accumulator : AvgAccumulator := (0, 0)

def add_input (accumulator : AvgAccumulator) (x : ℚ) : AvgAccumulator :=
  _add_input_for_average_metric accumulator x

def merge_accumulators (accumulators : List AvgAccumulator) :
    Option AvgAccumulator :=
  _merge_accumulators_for_average_metric accumulators

/-- Embeds `RecidivismRateFn.extract_output`:
`(returns + 0.0) / releases if releases else float('NaN')`. -/
def extract_output (accumulator : AvgAccumulator) : Output :=
  { total_releases := accumulator.2
    recidivated_releases := accumulator.1
    recidivism_rate :=
      if accumulator.2 ≠ 0 then PyFloat.val (accumulator.1 / accumulator.2)
      else PyFloat.nan }

end RecidivismRateFn

namespace RecidivismLibertyFn

/-- Output dictionary of `RecidivismLibertyFn.extract_output`. -/
structure Output where
  returns : ℕ
  avg_liberty : PyFloat
deriving DecidableEq, Repr

def create_accumulator : AvgAccumulator := (0, 0)

def add_input (accumulator : AvgAccumulator) (x : ℚ) : AvgAccumulator :=
  _add_input_for_average_metric accumulator x

def merge_accumulators (accumulators : List AvgAccumulator) :
    Option AvgAccumulator :=
  _merge_accumulators_for_average_metric accumulators

/-- Embeds `RecidivismLibertyFn.extract_output`:
`(sum_liberty_days + 0.0) / returns if returns else float('NaN')`. -/
def extract_output (sum_count : AvgAccumulator) : Output :=
  { returns := sum_count.2
    avg_liberty :=
      if sum_count.2 ≠ 0 then PyFloat.val (sum_count.1 / sum_count.2)
      else PyFloat.nan }

end RecidivismLibertyFn

namespace SupervisionSuccessFn

/-- Output dictionary of `SupervisionSuccessFn.extract_output`. -/
structure Output where
  successful_completion_count : ℚ
  projected_completion_count : ℕ
deriving DecidableEq, Repr

def create_accumulator : AvgAccumulator := (0, 0)

def add_input (accumulator : AvgAccumulator) (x : ℚ) : AvgAccumulator :=
  _add_input_for_average_metric accumulator x

def merge_accumulators (accumulators : List AvgAccumulator) :
    Option AvgAccumulator :=
  _merge_accumulators_for_average_metric accumulators

/-- Embeds `SupervisionSuccessFn.extract_output` (no division step). -/
def extract_output (sum_count : AvgAccumulator) : Output :=
  { successful_completion_count := sum_count.1
    projected_completion_count := sum_count.2 }

end SupervisionSuccessFn

namespace TerminatedSupervisionAssessmentScoreChange

/-- Output dictionary of `TerminatedSupervisionAssessmentScoreChange.extract_output`. -/
structure Output where
  average_score_change : PyFloat
  count : ℕ
deriving DecidableEq, Repr

def create_accumulator : AvgAccumulator := (0, 0)

def add_input (accumulator : AvgAccumulator) (x : ℚ) : AvgAccumulator :=
  _add_input_for_average_metric accumulator x

def merge_accumulators (accumulators : List AvgAccumulator) :
    Option AvgAccumulator :=
  _merge_accumulators_for_average_metric accumulators

/-- Embeds `TerminatedSupervisionAssessmentScoreChange.extract_output`:
`(sum_score_changes + 0.0) / total_count if total_count else float('NaN')`. -/
def extract_output (sum_count : AvgAccumulator) : Output :=
  { average_score_change :=
      if sum_count.2 ≠ 0 then PyFloat.val (sum_count.1 / sum_count.2)
      else PyFloat.nan
    count := sum_count.2 }

end TerminatedSupervisionAssessmentScoreChange

namespace SumFn

def create_accumulator : ℚ := 0

def add_input (accumulator : ℚ) (x : ℚ) : ℚ := accumulator + x

/-- Embeds `SumFn.merge_accumulators`; Python's builtin `sum` is total and
returns `0` on the empty list. -/
def merge_accumulators (accumulators : List ℚ) : ℚ := accumulators.sum

def extract_output (accumulator : ℚ) : ℚ := accumulator

end SumFn

/- ## `ConvertDictToKVTuple` (`beam_utils.py`)

The `DoFn` reads one value out of a dictionary element and emits a
`(value, element)` pair when that value is truthy.  The dictionary values
are modelled by a small fragment of Python values that is closed under the
lookups the `DoFn` performs. -/

/-- A Python value as stored in a metric dictionary element. -/
inductive PyValue where
  | none : PyValue
  | int (i : ℤ) : PyValue
  | str (s : String) : PyValue
  | bool (b : Bool) : PyValue
deriving DecidableEq, Repr

/-- Python truthiness on the modelled value fragment: `None`, `0`, `""` and
`False` are falsy, everything else is truthy. -/
def PyValue.truthy : PyValue → Bool
  | .none => false
  | .int i => i ≠ 0
  | .str s => s ≠ ""
  | .bool b => b

/-- A dictionary element: an association list of string keys to values. -/
abbrev PyDict : Type := List (String × PyValue)

/-- `element.get(key)`: the first value stored under `key`, defaulting to
`None` when the key is missing. -/
def PyDict.get (element : PyDict) (key : String) : PyValue :=
  match element.find? (fun kv => kv.1 == key) with
  | some kv => kv.2
  | Option.none => PyValue.none

namespace ConvertDictToKVTuple

/-- Embeds `ConvertDictToKVTuple.process`: look the key up, and yield the
`(key_value, element)` pair only when `key_value` is truthy.  The generator
output is modelled as the list of yielded pairs. -/
def process (element : PyDict) (key : String) : List (PyValue × PyDict) :=
  let key_value := PyDict.get element key
  if key_value.truthy then [(key_value, element)] else []

end ConvertDictToKVTuple

/- ## Theorems about the streaming accumulators -/

/-- Reducing a list of inputs in a single average-metric accumulator,
starting from `create_accumulator`. -/
def reduce_inputs (inputs : List ℚ) : AvgAccumulator :=
  inputs.foldl _add_input_for_average_metric RecidivismRateFn.create_accumulator

theorem foldl_add_input_eq (l : List ℚ) (s : ℚ) (n : ℕ) :
    l.foldl _add_input_for_average_metric (s, n) = (s + l.sum, n + l.length) := by
  induction l generalizing s n with
  | nil => simp
  | cons x xs ih =>
      have hstep : _add_input_for_average_metric (s, n) x = (s + x, n + 1) := rfl
      rw [List.foldl_cons, hstep, ih]
      simp only [List.sum_cons, List.length_cons, Prod.mk.injEq]
      constructor
      · ring
      · omega

theorem reduce_inputs_eq (inputs : List ℚ) :
    reduce_inputs inputs = (inputs.sum, inputs.length) := by
  unfold reduce_inputs RecidivismRateFn.create_accumulator
  rw [foldl_add_input_eq]
  simp

theorem foldl_sumfn_eq (l : List ℚ) (s : ℚ) :
    l.foldl SumFn.add_input s = s + l.sum := by
  induction l generalizing s with
  | nil => simp
  | cons x xs ih =>
      have hstep : SumFn.add_input s x = s + x := rfl
      rw [List.foldl_cons, hstep, ih, List.sum_cons]
      ring

theorem merge_nonempty_eq_sums (accumulators : List AvgAccumulator)
    (h : accumulators ≠ []) :
    _merge_accumulators_for_average_metric accumulators
      = some ((accumulators.map Prod.fst).sum, (accumulators.map Prod.snd).sum) := by
  match accumulators with
  | [] => exact absurd rfl h
  | a :: rest => rfl

/-- C3: for every list of accumulator inputs and every partition of it into
groups, reducing each group with `add_input` from `create_accumulator`'s
`(0, 0)` and merging the per-group accumulators with
`merge_accumulators` gives exactly the `(sum, count)` pair of reducing the
whole list at once; the result does not depend on the grouping, nor on the
order of the groups, and the parallel `SumFn` satisfies the same partition
law. -/
theorem merge_of_partition_eq_total_reduction
    (inputs : List ℚ) (groups : List (List ℚ))
    (hpart : groups.flatten = inputs) (hne : groups ≠ []) :
    (_merge_accumulators_for_average_metric (groups.map reduce_inputs)
        = some (reduce_inputs inputs)
      ∧ ∀ groups' : List (List ℚ), groups'.Perm groups →
          _merge_accumulators_for_average_metric (groups'.map reduce_inputs)
            = _merge_accumulators_for_average_metric (groups.map reduce_inputs))
    ∧ SumFn.merge_accumulators
          (groups.map (fun g => g.foldl SumFn.add_input SumFn.create_accumulator))
        = inputs.foldl SumFn.add_input SumFn.create_accumulator := by
  have hmap :
      ∀ gs : List (List ℚ), gs.map reduce_inputs
        = gs.map (fun g => (g.sum, g.length)) := by
    intro gs
    exact List.map_congr_left (fun g _ => reduce_inputs_eq g)
  have hsummary :
      ∀ gs : List (List ℚ), gs ≠ [] →
        _merge_accumulators_for_average_metric (gs.map reduce_inputs)
          = some (gs.flatten.sum, gs.flatten.length) := by
    intro gs hgs
    rw [merge_nonempty_eq_sums _ (by simpa using hgs), hmap gs]
    simp [List.map_map, Function.comp_def, List.sum_flatten, List.length_flatten]
  refine ⟨⟨?_, ?_⟩, ?_⟩
  · rw [hsummary groups hne, hpart, reduce_inputs_eq]
  · intro groups' hperm
    have hne' : groups' ≠ [] := by
      intro hnil
      have hlen := hperm.length_eq
      rw [hnil] at hlen
      exact hne (List.length_eq_zero.mp hlen.symm)
    rw [hsummary groups hne, hsummary groups' hne']
    have hflat : groups'.flatten.Perm groups.flatten := hperm.flatten
    rw [hflat.sum_eq, hflat.length_eq]
  · unfold SumFn.merge_accumulators SumFn.create_accumulator
    have : groups.map (fun g => g.foldl SumFn.add_input 0)
        = groups.map List.sum := by
      refine List.map_congr_left (fun g _ => ?_)
      rw [foldl_sumfn_eq]
      ring
    rw [this, foldl_sumfn_eq, ← List.sum_flatten, hpart]
    ring

/-- Witness for C3 at a concrete partition: the inputs `[1, 0, 1, 1]` split
into the groups `[[1, 0], [1, 1]]`. -/
theorem merge_of_partition_eq_total_reduction_witness :
    _merge_accumulators_for_average_metric
        (([[(1 : ℚ), 0], [1, 1]]).map reduce_inputs)
      = some (reduce_inputs [(1 : ℚ), 0, 1, 1]) :=
  (merge_of_partition_eq_total_reduction [(1 : ℚ), 0, 1, 1] [[1, 0], [1, 1]]
    (by decide) (by decide)).1.1

/-- C9: `merge_accumulators` applied to a non-empty collection of
`(sum, count)` accumulators returns their element-wise sum, but applied to
the empty collection the shared helper fails (the `zip(*accumulators)`
unpack raises `ValueError`) instead of returning the identity accumulator
`(0, 0)`; so merge is not total and `(0, 0)` is not a usable identity under
merge. -/
theorem merge_accumulators_partial_on_empty :
    _merge_accumulators_for_average_metric [] = none
    ∧ RecidivismLibertyFn.merge_accumulators [] = none
    ∧ ∀ accumulators : List AvgAccumulator, accumulators ≠ [] →
        RecidivismLibertyFn.merge_accumulators accumulators
          = some ((accumulators.map Prod.fst).sum, (accumulators.map Prod.snd).sum) := by
  refine ⟨rfl, rfl, ?_⟩
  intro accumulators h
  exact merge_nonempty_eq_sums accumulators h

/-- Witness for C9 on a concrete non-empty collection of accumulators. -/
theorem merge_accumulators_partial_on_empty_witness :
    RecidivismLibertyFn.merge_accumulators [(3, 2), (5, 4)] = some (8, 6) :=
  (merge_accumulators_partial_on_empty.2.2 [(3, 2), (5, 4)] (by decide)).trans
    (by norm_num)

/-- C7: every rate/average style combiner (`RecidivismRateFn`,
`RecidivismLibertyFn`, `TerminatedSupervisionAssessmentScoreChange`)
extracts `sum / count` when the count is positive and the `NaN` sentinel
when the count is zero; `extract_output` is a total function (it never
raises), and extracting from a fresh `create_accumulator` yields `NaN`. -/
theorem extract_output_div_when_positive_nan_when_zero (s : ℚ) (c : ℕ) :
    (0 < c →
      (RecidivismRateFn.extract_output (s, c)).recidivism_rate = PyFloat.val (s / c)
      ∧ (RecidivismLibertyFn.extract_output (s, c)).avg_liberty = PyFloat.val (s / c)
      ∧ (TerminatedSupervisionAssessmentScoreChange.extract_output (s, c)).average_score_change
          = PyFloat.val (s / c))
    ∧ (c = 0 →
      (RecidivismRateFn.extract_output (s, c)).recidivism_rate = PyFloat.nan
      ∧ (RecidivismLibertyFn.extract_output (s, c)).avg_liberty = PyFloat.nan
      ∧ (TerminatedSupervisionAssessmentScoreChange.extract_output (s, c)).average_score_change
          = PyFloat.nan)
    ∧ (RecidivismRateFn.extract_output RecidivismRateFn.create_accumulator).recidivism_rate
        = PyFloat.nan
    ∧ (RecidivismLibertyFn.extract_output RecidivismLibertyFn.create_accumulator).avg_liberty
        = PyFloat.nan
    ∧ (TerminatedSupervisionAssessmentScoreChange.extract_output
          TerminatedSupervisionAssessmentScoreChange.create_accumulator).average_score_change
        = PyFloat.nan := by
  refine ⟨?_, ?_, by decide, by decide, by decide⟩
  · intro hc
    have hc' : c ≠ 0 := Nat.pos_iff_ne_zero.mp hc
    refine ⟨?_, ?_, ?_⟩ <;>
      simp [RecidivismRateFn.extract_output, RecidivismLibertyFn.extract_output,
        TerminatedSupervisionAssessmentScoreChange.extract_output, hc']
  · intro hc
    subst hc
    refine ⟨?_, ?_, ?_⟩ <;>
      simp [RecidivismRateFn.extract_output, RecidivismLibertyFn.extract_output,
        TerminatedSupervisionAssessmentScoreChange.extract_output]

/-- Witness for C7 at the concrete accumulator `(3, 2)`. -/
theorem extract_output_div_when_positive_nan_when_zero_witness :
    (RecidivismRateFn.extract_output (3, 2)).recidivism_rate = PyFloat.val (3 / 2)
    ∧ (RecidivismRateFn.extract_output RecidivismRateFn.create_accumulator).recidivism_rate
        = PyFloat.nan :=
  ⟨((extract_output_div_when_positive_nan_when_zero 3 2).1 (by decide)).1,
    (extract_output_div_when_positive_nan_when_zero 3 2).2.2.1⟩

/- ## Theorems about `ConvertDictToKVTuple` -/

/-- C10: `process` emits the `(key value, element)` pair exactly when the
value stored under the key is truthy; an element whose key is missing, or
maps to `None`, `0`, the empty string, or `False`, is silently dropped (the
output is empty, and no error is possible since `process` is total). -/
theorem process_emits_iff_truthy (element : PyDict) (key : String) :
    (∀ kv : PyValue × PyDict,
      kv ∈ ConvertDictToKVTuple.process element key ↔
        ((PyDict.get element key).truthy = true
          ∧ kv = (PyDict.get element key, element)))
    ∧ ((PyDict.get element key).truthy = false →
        ConvertDictToKVTuple.process element key = []) := by
  unfold ConvertDictToKVTuple.process
  constructor
  · intro kv
    by_cases h : (PyDict.get element key).truthy <;> simp [h]
  · intro h
    simp [h]

/-- Witness for C10: an element whose key holds the falsy value `0` is
dropped, one whose key holds a non-zero value is emitted. -/
theorem process_emits_iff_truthy_witness :
    ConvertDictToKVTuple.process [("k", PyValue.int 0)] "k" = []
    ∧ ((PyValue.int 7, [("k", PyValue.int 7)])
        ∈ ConvertDictToKVTuple.process [("k", PyValue.int 7)] "k") :=
  ⟨(process_emits_iff_truthy [("k", PyValue.int 0)] "k").2 (by decide),
    ((process_emits_iff_truthy [("k", PyValue.int 7)] "k").1
      (PyValue.int 7, [("k", PyValue.int 7)])).mpr (by decide)⟩

/-- The falsy drop cases named by the specification, checked concretely:
missing key, `None`, `0`, empty string, `False`. -/
theorem process_drops_falsy_cases :
    ConvertDictToKVTuple.process [] "k" = []
    ∧ ConvertDictToKVTuple.process [("other", PyValue.int 5)] "k" = []
    ∧ ConvertDictToKVTuple.process [("k", PyValue.none)] "k" = []
    ∧ ConvertDictToKVTuple.process [("k", PyValue.int 0)] "k" = []
    ∧ ConvertDictToKVTuple.process [("k", PyValue.str "")] "k" = []
    ∧ ConvertDictToKVTuple.process [("k", PyValue.bool false)] "k" = [] :=
  ⟨rfl, rfl, rfl, rfl, rfl, rfl⟩

/- ## Recidivism calculator: enumerations and release events

`recidiviz/calculator/pipeline/recidivism/calculator.py` and
`release_event.py` are not part of this tree (only their test suite is), so
the data model and functions below are modelled from the specification and
checked against the concrete vectors of `calculator_test.py`. -/

/-- Modelled from the spec: `ReincarcerationReturnType` (§3), the reason a
reincarceration happened. -/
inductive ReincarcerationReturnType where
  | NEW_ADMISSION : ReincarcerationReturnType
  | REVOCATION : ReincarcerationReturnType
deriving DecidableEq, Repr

/-- Modelled from the spec: `ReincarcerationReturnFromSupervisionType` (§3). -/
inductive ReincarcerationReturnFromSupervisionType where
  | PAROLE : ReincarcerationReturnFromSupervisionType
  | PROBATION : ReincarcerationReturnFromSupervisionType
deriving DecidableEq, Repr

/-- Modelled from the spec: `StateSupervisionViolationType` (§3), the closed
violation-type enumeration; its six members give the sub-explosion counts
used by `calculator_test.py` (`46 = 2 × (1 + 1 + (2·6 + 2 + 6 + 1))`). -/
inductive StateSupervisionViolationType where
  | ABSCONDED : StateSupervisionViolationType
  | ESCAPED : StateSupervisionViolationType
  | FELONY : StateSupervisionViolationType
  | MISDEMEANOR : StateSupervisionViolationType
  | MUNICIPAL : StateSupervisionViolationType
  | TECHNICAL : StateSupervisionViolationType
deriving DecidableEq, Repr

/-- Modelled from the spec: `NonRecidivismReleaseEvent` (§3) — the common
`ReleaseEvent` fields, with no reincarceration afterwards. -/
structure NonRecidivismReleaseEvent where
  state_code : String
  original_admission_date : Option DateYMD
  release_date : Option DateYMD
  release_facility : Option String
  county_of_residence : Option String
deriving DecidableEq, Repr

/-- Modelled from the spec: `RecidivismReleaseEvent` (§3) — the common
fields plus the reincarceration data. -/
structure RecidivismReleaseEvent where
  state_code : String
  original_admission_date : Option DateYMD
  release_date : Option DateYMD
  release_facility : Option String
  county_of_residence : Option String
  reincarceration_date : DateYMD
  reincarceration_facility : Option String
  return_type : ReincarcerationReturnType
  from_supervision_type : Option ReincarcerationReturnFromSupervisionType
  source_violation_type : Option StateSupervisionViolationType
deriving DecidableEq, Repr

/-- Modelled from the spec: the tagged `ReleaseEvent` variant (§3, §9). -/
inductive ReleaseEvent where
  | nonRecidivism (e : NonRecidivismReleaseEvent) : ReleaseEvent
  | recidivism (e : RecidivismReleaseEvent) : ReleaseEvent
deriving DecidableEq, Repr

/-- Modelled from the spec: the optional return-type sub-fields of a metric
key template (§3, §4.3); an absent sub-field means "matches any value". -/
structure MetricKeyTemplate where
  return_type : Option ReincarcerationReturnType
  from_supervision_type : Option ReincarcerationReturnFromSupervisionType
  source_violation_type : Option StateSupervisionViolationType
deriving DecidableEq, Repr

/- ## Event scorer -/

/-- Modelled from the spec: `recidivism_value_for_metric` (§4.4), the event
scorer, absent from `src/`; its behavior is additionally pinned by the
`test_recidivism_value_for_metric*` tests.  The value is 1 iff the template
has no `return_type` sub-field, or the template's `return_type` equals the
event's and each sub-field present on the template equals the corresponding
event field; in every other case it is 0. -/
def recidivism_value_for_metric (combo : MetricKeyTemplate)
    (event_return_type : Option ReincarcerationReturnType)
    (event_from_supervision_type : Option ReincarcerationReturnFromSupervisionType)
    (event_source_violation_type : Option StateSupervisionViolationType) : ℕ :=
  match combo.return_type with
  | Option.none => 1
  | some combo_return_type =>
      if some combo_return_type = event_return_type
          ∧ (combo.from_supervision_type = Option.none
              ∨ combo.from_supervision_type = event_from_supervision_type)
          ∧ (combo.source_violation_type = Option.none
              ∨ combo.source_violation_type = event_source_violation_type)
      then 1 else 0

/-- C1: for every metric-key template `t` and every `RecidivismReleaseEvent`
`e`, the event scorer returns 1 iff `t` has no `return_type` sub-field, or
`t`'s `return_type` equals `e`'s and every sub-field present on `t`
(`from_supervision_type`, `source_violation_type`) equals the corresponding
field of `e`; in every other case it returns 0. -/
theorem recidivism_value_for_metric_indicator (t : MetricKeyTemplate)
    (e : RecidivismReleaseEvent) :
    (recidivism_value_for_metric t (some e.return_type)
        e.from_supervision_type e.source_violation_type = 1
      ↔ (t.return_type = Option.none
          ∨ (t.return_type = some e.return_type
            ∧ (t.from_supervision_type = Option.none
                ∨ t.from_supervision_type = e.from_supervision_type)
            ∧ (t.source_violation_type = Option.none
                ∨ t.source_violation_type = e.source_violation_type))))
    ∧ (recidivism_value_for_metric t (some e.return_type)
          e.from_supervision_type e.source_violation_type = 1
      ∨ recidivism_value_for_metric t (some e.return_type)
          e.from_supervision_type e.source_violation_type = 0) := by
  unfold recidivism_value_for_metric
  rcases t with ⟨rts, fsts, svts⟩
  dsimp only
  cases rts with
  | none => simp
  | some rt =>
      dsimp only
      split_ifs with h
      · exact ⟨⟨fun _ => Or.inr h, fun _ => rfl⟩, Or.inl rfl⟩
      · refine ⟨⟨fun h01 => absurd h01 (by simp), fun hcon => ?_⟩, Or.inr rfl⟩
        rcases hcon with hnone | hP
        · exact absurd hnone (by simp)
        · exact absurd hP h

/-- The scorer vectors from `test_recidivism_value_for_metric*`, checked
concretely against the spec-modelled definition. -/
theorem recidivism_value_for_metric_test_vectors :
    recidivism_value_for_metric ⟨Option.none, Option.none, Option.none⟩
        Option.none Option.none Option.none = 1
    ∧ recidivism_value_for_metric
        ⟨some ReincarcerationReturnType.NEW_ADMISSION, Option.none, Option.none⟩
        (some ReincarcerationReturnType.NEW_ADMISSION) Option.none Option.none = 1
    ∧ recidivism_value_for_metric
        ⟨some ReincarcerationReturnType.NEW_ADMISSION, Option.none, Option.none⟩
        (some ReincarcerationReturnType.REVOCATION) Option.none Option.none = 0
    ∧ recidivism_value_for_metric
        ⟨some ReincarcerationReturnType.REVOCATION,
          some ReincarcerationReturnFromSupervisionType.PAROLE, Option.none⟩
        (some ReincarcerationReturnType.REVOCATION)
        (some ReincarcerationReturnFromSupervisionType.PAROLE) Option.none = 1
    ∧ recidivism_value_for_metric
        ⟨some ReincarcerationReturnType.REVOCATION,
          some ReincarcerationReturnFromSupervisionType.PROBATION,
          some StateSupervisionViolationType.FELONY⟩
        (some ReincarcerationReturnType.REVOCATION)
        (some ReincarcerationReturnFromSupervisionType.PROBATION)
        (some StateSupervisionViolationType.FELONY) = 1
    ∧ recidivism_value_for_metric
        ⟨some ReincarcerationReturnType.REVOCATION,
          some ReincarcerationReturnFromSupervisionType.PROBATION, Option.none⟩
        (some ReincarcerationReturnType.REVOCATION)
        (some ReincarcerationReturnFromSupervisionType.PAROLE) Option.none = 0
    ∧ recidivism_value_for_metric
        ⟨some ReincarcerationReturnType.REVOCATION,
          some ReincarcerationReturnFromSupervisionType.PROBATION,
          some StateSupervisionViolationType.FELONY⟩
        (some ReincarcerationReturnType.REVOCATION)
        (some ReincarcerationReturnFromSupervisionType.PAROLE)
        (some StateSupervisionViolationType.TECHNICAL) = 0 := by
  refine ⟨rfl, ?_, ?_, ?_, ?_, ?_, ?_⟩ <;> decide

/- ## Temporal bucketing: earliest recidivated follow-up period -/

/-- Month/day of `d` strictly precedes month/day of `r` within the year. -/
def mdPrecedes (d r : DateYMD) : Prop :=
  d.month < r.month ∨ (d.month = r.month ∧ d.day < r.day)

instance (d r : DateYMD) : Decidable (mdPrecedes d r) := by
  unfold mdPrecedes; infer_instance

/-- `d` falls exactly on `r`'s month/day anniversary. -/
def mdAnniversary (d r : DateYMD) : Prop :=
  d.month = r.month ∧ d.day = r.day

instance (d r : DateYMD) : Decidable (mdAnniversary d r) := by
  unfold mdAnniversary; infer_instance

/-- Modelled from the spec: `earliest_recidivated_follow_up_period` (§4.2),
absent from `src/`.  `None` when there is no reincarceration; otherwise
`full_years + 1`, where `full_years` is the year difference decremented by
one when the reincarceration's month/day precedes the release's — except
that a reincarceration falling exactly on the release's month/day
anniversary yields `full_years` with no increment. -/
def earliest_recidivated_follow_up_period (release_date : DateYMD)
    (reincarceration_date : Option DateYMD) : Option ℤ :=
  match reincarceration_date with
  | Option.none => Option.none
  | some d =>
      let full_years : ℤ := (d.year : ℤ) - (release_date.year : ℤ)
        - (if mdPrecedes d release_date then 1 else 0)
      if mdAnniversary d release_date then some full_years
      else some (full_years + 1)

/-- C5: for a reincarceration date `d` after the release date `r`, the
result is `full_years + 1` — where `full_years` is the number of complete
calendar years between `r` and `d`, i.e. the unique count with
`r + full_years years ≤ d < r + (full_years + 1) years` — except that when
`d` falls exactly on `r`'s month/day anniversary the result is `full_years`
with no increment; with no reincarceration date the result is `None`. -/
theorem earliest_recidivated_follow_up_period_spec (r d : DateYMD)
    (h : DateYMD.before r d) :
    (∃ full_years : ℕ,
      DateYMD.onOrBefore (r.addYears full_years) d
      ∧ DateYMD.before d (r.addYears (full_years + 1))
      ∧ earliest_recidivated_follow_up_period r (some d)
          = some (if mdAnniversary d r then (full_years : ℤ)
                  else (full_years : ℤ) + 1))
    ∧ earliest_recidivated_follow_up_period r Option.none = Option.none := by
  refine ⟨?_, rfl⟩
  unfold DateYMD.before at h
  refine ⟨d.year - r.year - (if mdPrecedes d r then 1 else 0), ?_, ?_, ?_⟩
  · unfold DateYMD.onOrBefore DateYMD.addYears
    unfold mdPrecedes
    dsimp only
    split_ifs with hp
    · unfold mdPrecedes at hp
      omega
    · unfold mdPrecedes at hp
      omega
  · unfold DateYMD.before DateYMD.addYears
    unfold mdPrecedes
    dsimp only
    split_ifs with hp
    · unfold mdPrecedes at hp
      omega
    · unfold mdPrecedes at hp
      omega
  · unfold earliest_recidivated_follow_up_period
    dsimp only
    unfold mdAnniversary mdPrecedes
    split_ifs <;> · congr 1; omega

/-- Witness for C5 at the anniversary test vector
`(2012-04-20, 2016-04-20)` from `calculator_test.py`. -/
theorem earliest_recidivated_follow_up_period_spec_witness :
    ∃ full_years : ℕ,
      DateYMD.onOrBefore (DateYMD.addYears ⟨2012, 4, 20⟩ full_years) ⟨2016, 4, 20⟩
      ∧ DateYMD.before ⟨2016, 4, 20⟩ (DateYMD.addYears ⟨2012, 4, 20⟩ (full_years + 1))
      ∧ earliest_recidivated_follow_up_period ⟨2012, 4, 20⟩ (some ⟨2016, 4, 20⟩)
          = some (if mdAnniversary ⟨2016, 4, 20⟩ ⟨2012, 4, 20⟩ then (full_years : ℤ)
                  else (full_years : ℤ) + 1) :=
  (earliest_recidivated_follow_up_period_spec ⟨2012, 4, 20⟩ ⟨2016, 4, 20⟩
    (by decide)).1

/-- All seven `earliest_recidivated_follow_up_period` vectors from
`calculator_test.py`, checked concretely against the modelled definition. -/
theorem earliest_recidivated_follow_up_period_test_vectors :
    earliest_recidivated_follow_up_period ⟨2012, 4, 20⟩ (some ⟨2016, 5, 13⟩) = some 5
    ∧ earliest_recidivated_follow_up_period ⟨2012, 4, 20⟩ (some ⟨2016, 4, 21⟩) = some 5
    ∧ earliest_recidivated_follow_up_period ⟨2012, 4, 20⟩ (some ⟨2016, 4, 20⟩) = some 4
    ∧ earliest_recidivated_follow_up_period ⟨2012, 4, 20⟩ (some ⟨2016, 4, 19⟩) = some 4
    ∧ earliest_recidivated_follow_up_period ⟨2012, 4, 20⟩ (some ⟨2016, 3, 31⟩) = some 4
    ∧ earliest_recidivated_follow_up_period ⟨2012, 4, 20⟩ (some ⟨2012, 5, 13⟩) = some 1
    ∧ earliest_recidivated_follow_up_period ⟨2012, 4, 30⟩ Option.none = Option.none := by
  refine ⟨?_, ?_, ?_, ?_, ?_, ?_, rfl⟩ <;> decide

/- ## Temporal bucketing: relevant follow-up periods -/

/-- The follow-up period schedule `FOLLOW_UP_PERIODS = range(1, 11)`. -/
def FOLLOW_UP_PERIODS : List ℕ := [1, 2, 3, 4, 5, 6, 7, 8, 9, 10]

/-- Modelled from the spec: `relevant_follow_up_periods` (§4.2), absent from
`src/`: the subset of the candidate periods `p` whose window has started,
i.e. with `release_date + (p − 1) years` on or before the evaluation date. -/
def relevant_follow_up_periods (release_date evaluation_date : DateYMD)
    (follow_up_periods : List ℕ) : List ℕ :=
  follow_up_periods.filter
    (fun p => decide (DateYMD.onOrBefore (release_date.addYears (p - 1)) evaluation_date))

theorem DateYMD.addYears_zero (d : DateYMD) : d.addYears 0 = d := by
  cases d
  simp [DateYMD.addYears]

/-- C8: `relevant_follow_up_periods` returns exactly the subset of candidate
periods `p` with the evaluation date on or after the release date plus
`(p − 1)` years; period 1 is relevant whenever the release has occurred on
or before the evaluation date, and the result is empty when the release
date is after the evaluation date. -/
theorem relevant_follow_up_periods_spec (r e : DateYMD) (ps : List ℕ) :
    (∀ p : ℕ, p ∈ relevant_follow_up_periods r e ps ↔
      (p ∈ ps ∧ DateYMD.onOrBefore (r.addYears (p - 1)) e))
    ∧ (1 ∈ ps → (1 ∈ relevant_follow_up_periods r e ps ↔ DateYMD.onOrBefore r e))
    ∧ (DateYMD.before e r → relevant_follow_up_periods r e ps = []) := by
  have hmem : ∀ p : ℕ, p ∈ relevant_follow_up_periods r e ps ↔
      (p ∈ ps ∧ DateYMD.onOrBefore (r.addYears (p - 1)) e) := by
    intro p
    unfold relevant_follow_up_periods
    rw [List.mem_filter]
    simp
  refine ⟨hmem, ?_, ?_⟩
  · intro h1
    rw [hmem 1]
    simp [h1, DateYMD.addYears_zero]
  · intro hlate
    unfold relevant_follow_up_periods
    rw [List.filter_eq_nil_iff]
    intro p _
    rw [decide_eq_true_eq]
    intro habs
    exact DateYMD.not_onOrBefore_of_before hlate
      (DateYMD.onOrBefore_trans (DateYMD.onOrBefore_addYears r (p - 1)) habs)

/-- Witness for C8 at the two `test_relevant_follow_up_periods` vectors. -/
theorem relevant_follow_up_periods_spec_witness :
    relevant_follow_up_periods ⟨2018, 2, 5⟩ ⟨2018, 1, 26⟩ FOLLOW_UP_PERIODS = []
    ∧ relevant_follow_up_periods ⟨2015, 1, 5⟩ ⟨2018, 1, 26⟩ FOLLOW_UP_PERIODS
        = [1, 2, 3, 4] :=
  ⟨(relevant_follow_up_periods_spec ⟨2018, 2, 5⟩ ⟨2018, 1, 26⟩ FOLLOW_UP_PERIODS).2.2
      (by decide),
    by decide⟩

/- ## Calendar helpers for metric time windows and day counts -/

/-- Gregorian leap-year rule. -/
def isLeapYear (y : ℕ) : Prop := (y % 4 = 0 ∧ y % 100 ≠ 0) ∨ y % 400 = 0

instance (y : ℕ) : Decidable (isLeapYear y) := by
  unfold isLeapYear; infer_instance

/-- Days in the given month of the given year. -/
def daysInMonth (y m : ℕ) : ℕ :=
  if m = 2 then (if isLeapYear y then 29 else 28)
  else [31, 28, 31, 30, 31, 30, 31, 31, 30, 31, 30, 31].getD (m - 1) 31

/-- Days in all years strictly before year `y` (proleptic Gregorian). -/
def daysBeforeYear (y : ℕ) : ℕ :=
  365 * (y - 1) + (y - 1) / 4 - (y - 1) / 100 + (y - 1) / 400

/-- Days in the months of year `y` strictly before month `m`. -/
def daysBeforeMonth (y m : ℕ) : ℕ :=
  [0, 31, 59, 90, 120, 151, 181, 212, 243, 273, 304, 334].getD (m - 1) 0
    + (if isLeapYear y ∧ 2 < m then 1 else 0)

/-- Ordinal day number of a date, so that subtracting two day numbers gives
the `timedelta.days` between the two Python dates. -/
def dayNumber (d : DateYMD) : ℕ :=
  daysBeforeYear d.year + daysBeforeMonth d.year d.month + d.day

/-- `(b - a).days` for two Python dates. -/
def daysBetween (a b : DateYMD) : ℤ :=
  (dayNumber b : ℤ) - (dayNumber a : ℤ)

/-- Day-count vectors from `calculator_test.py`:
`(2014-05-12 − 2008-09-19).days` and `(1908-05-12 − 1908-01-19).days`. -/
theorem daysBetween_test_vectors :
    daysBetween ⟨2008, 9, 19⟩ ⟨2014, 5, 12⟩ = 2061
    ∧ daysBetween ⟨1908, 1, 19⟩ ⟨1908, 5, 12⟩ = 114 := by
  constructor <;> decide

/-- First day of the month bucket containing `d`. -/
def firstDayOfMonth (d : DateYMD) : DateYMD := ⟨d.year, d.month, 1⟩

/-- Last day of the month bucket containing `d`. -/
def lastDayOfMonth (d : DateYMD) : DateYMD := ⟨d.year, d.month, daysInMonth d.year d.month⟩

/-- First day of the year bucket containing `d`. -/
def firstDayOfYear (d : DateYMD) : DateYMD := ⟨d.year, 1, 1⟩

/-- Last day of the year bucket containing `d`. -/
def lastDayOfYear (d : DateYMD) : DateYMD := ⟨d.year, 12, 31⟩

/- ## Metric keys and the metric key space -/

/-- Modelled from the spec: `MetricMethodologyType` (§3). -/
inductive MetricMethodologyType where
  | PERSON : MetricMethodologyType
  | EVENT : MetricMethodologyType
deriving DecidableEq, Repr

/-- Modelled from the spec: `ReincarcerationRecidivismMetricType` (§3). -/
inductive ReincarcerationRecidivismMetricType where
  | RATE : ReincarcerationRecidivismMetricType
  | COUNT : ReincarcerationRecidivismMetricType
  | LIBERTY : ReincarcerationRecidivismMetricType
deriving DecidableEq, Repr

/-- Modelled from the spec: gender enumeration (§3). -/
inductive Gender where
  | MALE : Gender
  | FEMALE : Gender
  | EXTERNAL_UNKNOWN : Gender
deriving DecidableEq, Repr

/-- Modelled from the spec: race enumeration (§3). -/
inductive Race where
  | AMERICAN_INDIAN_ALASKAN_NATIVE : Race
  | ASIAN : Race
  | BLACK : Race
  | WHITE : Race
deriving DecidableEq, Repr

/-- Modelled from the spec: ethnicity enumeration (§3). -/
inductive Ethnicity where
  | HISPANIC : Ethnicity
  | NOT_HISPANIC : Ethnicity
deriving DecidableEq, Repr

/-- The two methodologies every combination is crossed with. -/
def METHODOLOGIES : List MetricMethodologyType :=
  [MetricMethodologyType.PERSON, MetricMethodologyType.EVENT]

def ALL_FROM_SUPERVISION_TYPES : List ReincarcerationReturnFromSupervisionType :=
  [ReincarcerationReturnFromSupervisionType.PAROLE,
   ReincarcerationReturnFromSupervisionType.PROBATION]

def ALL_SOURCE_VIOLATION_TYPES : List StateSupervisionViolationType :=
  [StateSupervisionViolationType.ABSCONDED,
   StateSupervisionViolationType.ESCAPED,
   StateSupervisionViolationType.FELONY,
   StateSupervisionViolationType.MISDEMEANOR,
   StateSupervisionViolationType.MUNICIPAL,
   StateSupervisionViolationType.TECHNICAL]

/-- Modelled from the spec: the closed return-type template space (§4.3) —
the all-returns template, the bare `NEW_ADMISSION` template, and the
`REVOCATION` sub-explosion (bare, × supervision type, × violation type,
× both). -/
def return_type_templates : List MetricKeyTemplate :=
  [⟨Option.none, Option.none, Option.none⟩,
   ⟨some ReincarcerationReturnType.NEW_ADMISSION, Option.none, Option.none⟩,
   ⟨some ReincarcerationReturnType.REVOCATION, Option.none, Option.none⟩]
  ++ ALL_FROM_SUPERVISION_TYPES.map
      (fun f => ⟨some ReincarcerationReturnType.REVOCATION, some f, Option.none⟩)
  ++ ALL_SOURCE_VIOLATION_TYPES.map
      (fun v => ⟨some ReincarcerationReturnType.REVOCATION, Option.none, some v⟩)
  ++ ALL_FROM_SUPERVISION_TYPES.flatMap
      (fun f => ALL_SOURCE_VIOLATION_TYPES.map
        (fun v => ⟨some ReincarcerationReturnType.REVOCATION, some f, some v⟩))

/-- The template space has the `23 = 1 + 1 + (1 + 2 + 6 + 12)` members that
`calculator_test.py` computes as `RETURN_TYPE_METRIC_COMBOS`, with no
duplicates. -/
theorem return_type_templates_size_nodup :
    return_type_templates.length = 23 ∧ return_type_templates.Nodup := by
  constructor <;> decide

/-- Modelled from the spec: a characteristic tuple (§3) — optional
demographic/geographic dimension values, with `person_id` present only on
the person-level output variant. -/
structure CharacteristicTuple where
  age_bucket : Option String
  gender : Option Gender
  race : Option Race
  ethnicity : Option Ethnicity
  release_facility : Option String
  stay_length_bucket : Option String
  county_of_residence : Option String
  person_id : Option ℕ
deriving DecidableEq, Repr

/-- Modelled from the spec: a metric key (§3) — characteristic tuple,
methodology, metric type, the time-window field appropriate to the type,
and the optional return-type sub-fields. -/
structure MetricKey where
  metric_type : ReincarcerationRecidivismMetricType
  methodology : MetricMethodologyType
  state_code : String
  follow_up_period : Option ℕ
  year : Option ℕ
  month : Option ℕ
  start_date : Option DateYMD
  end_date : Option DateYMD
  return_type : Option ReincarcerationReturnType
  from_supervision_type : Option ReincarcerationReturnFromSupervisionType
  source_violation_type : Option StateSupervisionViolationType
  characteristics : CharacteristicTuple
deriving DecidableEq, Repr

/-- The common fields of either release-event variant. -/
def ReleaseEvent.state_code : ReleaseEvent → String
  | .nonRecidivism e => e.state_code
  | .recidivism e => e.state_code

def ReleaseEvent.release_date : ReleaseEvent → Option DateYMD
  | .nonRecidivism e => e.release_date
  | .recidivism e => e.release_date

def ReleaseEvent.original_admission_date : ReleaseEvent → Option DateYMD
  | .nonRecidivism e => e.original_admission_date
  | .recidivism e => e.original_admission_date

def ReleaseEvent.release_facility : ReleaseEvent → Option String
  | .nonRecidivism e => e.release_facility
  | .recidivism e => e.release_facility

def ReleaseEvent.county_of_residence : ReleaseEvent → Option String
  | .nonRecidivism e => e.county_of_residence
  | .recidivism e => e.county_of_residence

/- ## Per-event combination generation -/

/-- Whether a reincarceration falls within the `period`-year follow-up
window of a release: its earliest recidivated follow-up period is at most
`period`. -/
def recidivated_within_period (release_date reincarceration_date : DateYMD)
    (period : ℕ) : Bool :=
  match earliest_recidivated_follow_up_period release_date
      (some reincarceration_date) with
  | some z => decide (z ≤ (period : ℤ))
  | Option.none => false

/-- A RATE metric key for one follow-up period, template and
characteristic tuple. -/
def rate_metric_key (state_code : String) (c : CharacteristicTuple)
    (m : MetricMethodologyType) (p : ℕ) (t : MetricKeyTemplate) : MetricKey :=
  { metric_type := ReincarcerationRecidivismMetricType.RATE
    methodology := m
    state_code := state_code
    follow_up_period := some p
    year := Option.none
    month := Option.none
    start_date := Option.none
    end_date := Option.none
    return_type := t.return_type
    from_supervision_type := t.from_supervision_type
    source_violation_type := t.source_violation_type
    characteristics := c }

/-- A COUNT metric key, time-windowed by the reincarceration's own
year (and possibly month). -/
def count_metric_key (state_code : String) (c : CharacteristicTuple)
    (m : MetricMethodologyType) (yr : ℕ) (mo : Option ℕ)
    (t : MetricKeyTemplate) : MetricKey :=
  { metric_type := ReincarcerationRecidivismMetricType.COUNT
    methodology := m
    state_code := state_code
    follow_up_period := Option.none
    year := some yr
    month := mo
    start_date := Option.none
    end_date := Option.none
    return_type := t.return_type
    from_supervision_type := t.from_supervision_type
    source_violation_type := t.source_violation_type
    characteristics := c }

/-- A LIBERTY metric key, bucketed by an explicit start/end date window. -/
def liberty_metric_key (state_code : String) (c : CharacteristicTuple)
    (m : MetricMethodologyType) (window_start window_end : DateYMD)
    (t : MetricKeyTemplate) : MetricKey :=
  { metric_type := ReincarcerationRecidivismMetricType.LIBERTY
    methodology := m
    state_code := state_code
    follow_up_period := Option.none
    year := Option.none
    month := Option.none
    start_date := some window_start
    end_date := some window_end
    return_type := t.return_type
    from_supervision_type := t.from_supervision_type
    source_violation_type := t.source_violation_type
    characteristics := c }

/-- Modelled from the spec: the RATE indicator value an event contributes
to one template and follow-up period (§4.4).  A non-recidivism event (and
an event with no release date, §7) contributes 0 to every rate template; a
recidivism event contributes 1 exactly when the template matches the event
and the reincarceration happened within the follow-up period.  This is
fixed by `test_map_recidivism_combinations_no_recidivism` (every value 0
for a non-recidivism event) and `test_map_recidivism_combinations` (0 for
periods before the reincarceration and for non-matching templates). -/
def rate_value_for_event (event : ReleaseEvent) (t : MetricKeyTemplate)
    (p : ℕ) : ℤ :=
  match event with
  | .nonRecidivism _ => 0
  | .recidivism e =>
      match e.release_date with
      | Option.none => 0
      | some rd =>
          if recidivism_value_for_metric t (some e.return_type)
                e.from_supervision_type e.source_violation_type = 1
              ∧ recidivated_within_period rd e.reincarceration_date p = true
          then 1 else 0

/-- Modelled from the spec: the RATE combinations one event contributes —
for each characteristic tuple, methodology, relevant follow-up period and
return-type template, the key and the event's indicator value (§4.3–§4.5). -/
def rate_combinations_for_event (chars : List CharacteristicTuple)
    (event : ReleaseEvent) (relevant_periods : List ℕ) :
    List (MetricKey × ℤ) :=
  chars.flatMap (fun c =>
    METHODOLOGIES.flatMap (fun m =>
      relevant_periods.flatMap (fun p =>
        return_type_templates.map (fun t =>
          (rate_metric_key (ReleaseEvent.state_code event) c m p t,
            rate_value_for_event event t p)))))

/-- Modelled from the spec: the COUNT combinations of a recidivism event —
one instance per reincarceration, windowed by the reincarceration's
year/month and by its year (§3, §4.3), scored by the event scorer (§4.4). -/
def count_combinations_for_recidivism_event (chars : List CharacteristicTuple)
    (e : RecidivismReleaseEvent) : List (MetricKey × ℤ) :=
  chars.flatMap (fun c =>
    METHODOLOGIES.flatMap (fun m =>
      return_type_templates.flatMap (fun t =>
        [(count_metric_key e.state_code c m e.reincarceration_date.year
            (some e.reincarceration_date.month) t,
          (recidivism_value_for_metric t (some e.return_type)
            e.from_supervision_type e.source_violation_type : ℤ)),
         (count_metric_key e.state_code c m e.reincarceration_date.year
            Option.none t,
          (recidivism_value_for_metric t (some e.return_type)
            e.from_supervision_type e.source_violation_type : ℤ))])))

/-- Modelled from the spec: the LIBERTY combinations of a recidivism
event — for the templates the event matches (absent, not zero, otherwise),
the days-at-liberty count in a month bucket and a year bucket keyed by the
reincarceration date (§3, §4.3, §4.4); skipped when the release date is
missing (§7). -/
def liberty_combinations_for_recidivism_event (chars : List CharacteristicTuple)
    (e : RecidivismReleaseEvent) : List (MetricKey × ℤ) :=
  match e.release_date with
  | Option.none => []
  | some rd =>
      chars.flatMap (fun c =>
        METHODOLOGIES.flatMap (fun m =>
          (return_type_templates.filter (fun t =>
              recidivism_value_for_metric t (some e.return_type)
                e.from_supervision_type e.source_violation_type == 1)).flatMap
            (fun t =>
              [(liberty_metric_key e.state_code c m
                  (firstDayOfMonth e.reincarceration_date)
                  (lastDayOfMonth e.reincarceration_date) t,
                daysBetween rd e.reincarceration_date),
               (liberty_metric_key e.state_code c m
                  (firstDayOfYear e.reincarceration_date)
                  (lastDayOfYear e.reincarceration_date) t,
                daysBetween rd e.reincarceration_date)])))

/-- Modelled from the spec: the per-event combination generation of
`map_recidivism_combinations` (§4.3–§4.5), absent from `src/`.  A
recidivism event contributes RATE, COUNT and LIBERTY combinations; a
non-recidivism event contributes only RATE combinations, every one of them
with value 0 — the all-returns RATE key's presence, not a value of 1, is
its denominator contribution, as fixed by
`test_map_recidivism_combinations_no_recidivism` (which asserts that every
emitted value is 0) and by the `RecidivismRateFn` docstring in
`beam_utils.py` ("inputs are either 0, representing a non-recidivism
release, or 1"). -/
def combinations_for_event (chars : List CharacteristicTuple)
    (event : ReleaseEvent) (relevant_periods : List ℕ) :
    List (MetricKey × ℤ) :=
  match event with
  | .nonRecidivism _ => rate_combinations_for_event chars event relevant_periods
  | .recidivism e =>
      rate_combinations_for_event chars event relevant_periods
        ++ count_combinations_for_recidivism_event chars e
        ++ liberty_combinations_for_recidivism_event chars e

/- ## Counting helpers for combination multiplicities -/

theorem countP_flatMap {α β : Type} (l : List α) (f : α → List β) (q : β → Bool) :
    (l.flatMap f).countP q = (l.map (fun a => (f a).countP q)).sum := by
  induction l with
  | nil => rfl
  | cons a as ih => simp [List.flatMap_cons, List.countP_append, ih]

theorem countP_flatMap_zero {α β : Type} (L : List α) (F : α → List β)
    (q : β → Bool) (hall : ∀ a ∈ L, (F a).countP q = 0) :
    (L.flatMap F).countP q = 0 := by
  rw [countP_flatMap]
  apply List.sum_eq_zero
  intro n hn
  obtain ⟨a, ha, rfl⟩ := List.mem_map.mp hn
  exact hall a ha

/-- Counting over a `flatMap` in which exactly one index of a
duplicate-free index list contributes one match. -/
theorem countP_flatMap_single {α β : Type} (L : List α) (F : α → List β)
    (q : β → Bool) (x : α) (hx : x ∈ L) (hnd : L.Nodup)
    (hzero : ∀ a ∈ L, a ≠ x → (F a).countP q = 0)
    (hone : (F x).countP q = 1) :
    (L.flatMap F).countP q = 1 := by
  induction L with
  | nil => cases hx
  | cons a as ih =>
      rw [List.flatMap_cons, List.countP_append]
      rcases List.mem_cons.mp hx with rfl | hxas
      · have h0 : (as.flatMap F).countP q = 0 := by
          apply countP_flatMap_zero
          intro a' ha'
          exact hzero a' (List.mem_cons_of_mem _ ha')
            (fun h => (List.nodup_cons.mp hnd).1 (h ▸ ha'))
        rw [hone, h0]
      · have ha : a ≠ x := by
          rintro rfl
          exact (List.nodup_cons.mp hnd).1 hxas
        rw [hzero a (List.mem_cons_self a as) ha,
          ih hxas (List.nodup_cons.mp hnd).2
            (fun b hb hbx => hzero b (List.mem_cons_of_mem a hb) hbx)]

theorem countP_eq_one_of_nodup_mem {α : Type} [DecidableEq α]
    (l : List α) (x : α) (hnd : l.Nodup) (hx : x ∈ l) :
    l.countP (fun y => decide (y = x)) = 1 := by
  induction l with
  | nil => cases hx
  | cons a as ih =>
      rw [List.countP_cons]
      rcases List.mem_cons.mp hx with rfl | hxas
      · have h0 : as.countP (fun y => decide (y = x)) = 0 := by
          apply List.countP_eq_zero.mpr
          intro a' ha'
          simp only [decide_eq_true_eq]
          exact fun h => (List.nodup_cons.mp hnd).1 (h ▸ ha')
        simp [h0]
      · have ha : ¬ (a = x) := fun h => (List.nodup_cons.mp hnd).1 (h ▸ hxas)
        simp [ha, ih (List.nodup_cons.mp hnd).2 hxas]

/-- `rate_metric_key` is injective in all of its arguments. -/
theorem rate_metric_key_inj_iff {s s' : String} {c c' : CharacteristicTuple}
    {m m' : MetricMethodologyType} {p p' : ℕ} {t t' : MetricKeyTemplate} :
    rate_metric_key s c m p t = rate_metric_key s' c' m' p' t' ↔
      (s = s' ∧ c = c' ∧ m = m' ∧ p = p' ∧ t = t') := by
  cases t; cases t'
  unfold rate_metric_key
  simp only [MetricKey.mk.injEq, MetricKeyTemplate.mk.injEq, Option.some.injEq,
    and_true, true_and]
  tauto

theorem countP_templates_map_one (s : String) (c : CharacteristicTuple)
    (m : MetricMethodologyType) (p : ℕ) (v : MetricKeyTemplate → ℤ)
    (t : MetricKeyTemplate) (ht : t ∈ return_type_templates) :
    ((return_type_templates.map
        (fun t' => (rate_metric_key s c m p t', v t'))).countP
      (fun kv => decide (kv.1 = rate_metric_key s c m p t))) = 1 := by
  rw [List.countP_map]
  rw [List.countP_congr (q := fun t' => decide (t' = t)) ?_]
  · exact countP_eq_one_of_nodup_mem _ _ (by decide) ht
  · intro t' _
    simp [Function.comp, rate_metric_key_inj_iff]

theorem countP_templates_map_zero (s : String) (c' c : CharacteristicTuple)
    (m' m : MetricMethodologyType) (p' p : ℕ) (v : MetricKeyTemplate → ℤ)
    (t : MetricKeyTemplate) (hne : ¬ (c' = c ∧ m' = m ∧ p' = p)) :
    ((return_type_templates.map
        (fun t' => (rate_metric_key s c' m' p' t', v t'))).countP
      (fun kv => decide (kv.1 = rate_metric_key s c m p t))) = 0 := by
  rw [List.countP_map]
  apply List.countP_eq_zero.mpr
  intro t' _
  simp only [Function.comp, decide_eq_true_eq, rate_metric_key_inj_iff]
  tauto

/-- Within the RATE combinations of one event, each
(characteristic, methodology, period, template) key occurs exactly once. -/
theorem countP_rate_combinations_for_event
    (chars : List CharacteristicTuple) (periods : List ℕ) (event : ReleaseEvent)
    (c : CharacteristicTuple) (m : MetricMethodologyType) (p : ℕ)
    (t : MetricKeyTemplate)
    (hchars : chars.Nodup) (hper : periods.Nodup)
    (hc : c ∈ chars) (hm : m ∈ METHODOLOGIES) (hp : p ∈ periods)
    (ht : t ∈ return_type_templates) :
    (rate_combinations_for_event chars event periods).countP
      (fun kv => decide
        (kv.1 = rate_metric_key (ReleaseEvent.state_code event) c m p t)) = 1 := by
  unfold rate_combinations_for_event
  apply countP_flatMap_single _ _ _ c hc hchars
  · intro c' _ hne
    apply countP_flatMap_zero
    intro m' _
    apply countP_flatMap_zero
    intro p' _
    exact countP_templates_map_zero _ _ _ _ _ _ _ _ _ (by tauto)
  · apply countP_flatMap_single _ _ _ m hm (by decide)
    · intro m' _ hne
      apply countP_flatMap_zero
      intro p' _
      exact countP_templates_map_zero _ _ _ _ _ _ _ _ _ (by tauto)
    · apply countP_flatMap_single _ _ _ p hp hper
      · intro p' _ hne
        exact countP_templates_map_zero _ _ _ _ _ _ _ _ _ (by tauto)
      · exact countP_templates_map_one _ _ _ _ _ _ ht

/- ## Non-recidivism events: rate-only, all-zero output -/

/-- C2 (amended): for every `NonRecidivismReleaseEvent`, every combination
the generator emits is a RATE combination with value 0 — the all-returns
RATE key is present exactly once per characteristic tuple, methodology and
relevant follow-up period (that presence, with value 0, is the denominator
contribution) — and no COUNT or LIBERTY combinations are generated for the
event. -/
theorem nonrecidivism_event_rate_only_all_zero
    (chars : List CharacteristicTuple) (ne : NonRecidivismReleaseEvent)
    (periods : List ℕ) (hchars : chars.Nodup) (hper : periods.Nodup) :
    (∀ kv ∈ combinations_for_event chars (ReleaseEvent.nonRecidivism ne) periods,
        kv.2 = 0)
    ∧ (∀ kv ∈ combinations_for_event chars (ReleaseEvent.nonRecidivism ne) periods,
        kv.1.metric_type = ReincarcerationRecidivismMetricType.RATE)
    ∧ (∀ c ∈ chars, ∀ m ∈ METHODOLOGIES, ∀ p ∈ periods,
        (combinations_for_event chars (ReleaseEvent.nonRecidivism ne) periods).countP
          (fun kv => decide (kv.1 = rate_metric_key ne.state_code c m p
            ⟨Option.none, Option.none, Option.none⟩)) = 1) := by
  have hred : combinations_for_event chars (ReleaseEvent.nonRecidivism ne) periods
      = rate_combinations_for_event chars (ReleaseEvent.nonRecidivism ne) periods := rfl
  rw [hred]
  refine ⟨?_, ?_, ?_⟩
  · intro kv hkv
    unfold rate_combinations_for_event at hkv
    simp only [List.mem_flatMap, List.mem_map] at hkv
    obtain ⟨c, _, m, _, p, _, t, _, rfl⟩ := hkv
    rfl
  · intro kv hkv
    unfold rate_combinations_for_event at hkv
    simp only [List.mem_flatMap, List.mem_map] at hkv
    obtain ⟨c, _, m, _, p, _, t, _, rfl⟩ := hkv
    rfl
  · intro c hc m hm p hp
    exact countP_rate_combinations_for_event chars periods
      (ReleaseEvent.nonRecidivism ne) c m p
      ⟨Option.none, Option.none, Option.none⟩ hchars hper hc hm hp (by decide)

/-- The non-recidivism event used by
`test_map_recidivism_combinations_no_recidivism`. -/
def no_recidivism_event : NonRecidivismReleaseEvent :=
  { state_code := "CA"
    original_admission_date := some ⟨2005, 7, 19⟩
    release_date := some ⟨2008, 9, 19⟩
    release_facility := some "Hudson"
    county_of_residence := some "county" }

/-- A sample demographic characteristic tuple. -/
def sample_characteristics : CharacteristicTuple :=
  { age_bucket := Option.none
    gender := some Gender.FEMALE
    race := some Race.BLACK
    ethnicity := some Ethnicity.NOT_HISPANIC
    release_facility := some "Hudson"
    stay_length_bucket := Option.none
    county_of_residence := Option.none
    person_id := Option.none }

/-- Witness for C2 (amended) at a concrete non-recidivism event. -/
theorem nonrecidivism_event_rate_only_all_zero_witness :
    (combinations_for_event [sample_characteristics]
        (ReleaseEvent.nonRecidivism no_recidivism_event) [1, 2]).countP
      (fun kv => decide (kv.1 = rate_metric_key "CA" sample_characteristics
        MetricMethodologyType.PERSON 1
        ⟨Option.none, Option.none, Option.none⟩)) = 1 :=
  (nonrecidivism_event_rate_only_all_zero [sample_characteristics]
      no_recidivism_event [1, 2] (by decide) (by decide)).2.2
    sample_characteristics (by decide)
    MetricMethodologyType.PERSON (by decide) 1 (by decide)

/-- C2 counterexample: for the non-recidivism event of
`test_map_recidivism_combinations_no_recidivism`, the all-returns RATE key
is present but carries value 0, and no emitted combination has value 1 —
the test itself asserts that every value is 0 — so the claim that the
output "contains value 1 for the all-returns RATE template" is false. -/
theorem nonrecidivism_counterexample :
    ((rate_metric_key "CA" sample_characteristics MetricMethodologyType.PERSON 1
        ⟨Option.none, Option.none, Option.none⟩, (0 : ℤ))
      ∈ combinations_for_event [sample_characteristics]
          (ReleaseEvent.nonRecidivism no_recidivism_event) [1, 2])
    ∧ (∀ kv ∈ combinations_for_event [sample_characteristics]
          (ReleaseEvent.nonRecidivism no_recidivism_event) [1, 2], kv.2 = 0)
    ∧ ¬ (∃ kv ∈ combinations_for_event [sample_characteristics]
          (ReleaseEvent.nonRecidivism no_recidivism_event) [1, 2], kv.2 = 1) := by
  refine ⟨by decide, by decide, by decide⟩

/- ## Multiple releases in one cohort year: person-level collapse -/

/-- Modelled from the spec: the person-level collapse of §4.5, absent from
`src/`.  Walking the generated combinations in order, a PERSON-methodology
combination whose key was already emitted is dropped (the first —
chronologically relevant — instance is kept); EVENT-methodology
combinations are always retained. -/
def collapse_person_combos_from (seen : List MetricKey) :
    List (MetricKey × ℤ) → List (MetricKey × ℤ)
  | [] => []
  | kv :: rest =>
      if kv.1.methodology = MetricMethodologyType.PERSON ∧ kv.1 ∈ seen then
        collapse_person_combos_from seen rest
      else kv :: collapse_person_combos_from (kv.1 :: seen) rest

/-- Modelled from the spec: RATE combination generation across all the
events of one cohort year (§4.5): every event generates its combinations
and PERSON-methodology duplicates are collapsed. -/
def rate_combinations_for_cohort_year (chars : List CharacteristicTuple)
    (events : List ReleaseEvent) (relevant_periods : List ℕ) :
    List (MetricKey × ℤ) :=
  collapse_person_combos_from []
    (events.flatMap (fun e => rate_combinations_for_event chars e relevant_periods))

theorem countP_collapse_seen (seen : List MetricKey) (l : List (MetricKey × ℤ))
    (k : MetricKey) (hk : k.methodology = MetricMethodologyType.PERSON)
    (hs : k ∈ seen) :
    (collapse_person_combos_from seen l).countP (fun kv => decide (kv.1 = k)) = 0 := by
  induction l generalizing seen with
  | nil => rfl
  | cons kv rest ih =>
      unfold collapse_person_combos_from
      split_ifs with hcond
      · exact ih seen hs
      · rw [List.countP_cons]
        have hne : ¬ (kv.1 = k) := by
          intro h
          exact hcond ⟨by rw [h]; exact hk, by rw [h]; exact hs⟩
        simp only [hne, decide_eq_true_eq, if_false, Nat.add_zero]
        exact ih (kv.1 :: seen) (List.mem_cons_of_mem _ hs)

theorem countP_collapse_first (seen : List MetricKey) (l : List (MetricKey × ℤ))
    (k : MetricKey) (hk : k.methodology = MetricMethodologyType.PERSON)
    (hs : k ∉ seen)
    (hpos : 0 < l.countP (fun kv => decide (kv.1 = k))) :
    (collapse_person_combos_from seen l).countP (fun kv => decide (kv.1 = k)) = 1 := by
  induction l generalizing seen with
  | nil => simp at hpos
  | cons kv rest ih =>
      unfold collapse_person_combos_from
      by_cases hkvk : kv.1 = k
      · have hcond : ¬ (kv.1.methodology = MetricMethodologyType.PERSON ∧ kv.1 ∈ seen) := by
          rw [hkvk]
          exact fun hmem => hs hmem.2
        rw [if_neg hcond, List.countP_cons,
          countP_collapse_seen (kv.1 :: seen) rest k hk
            (by rw [← hkvk]; exact List.mem_cons_self _ _)]
        simp [hkvk]
      · have hpos' : 0 < rest.countP (fun kv => decide (kv.1 = k)) := by
          rw [List.countP_cons] at hpos
          simpa [hkvk] using hpos
        split_ifs with hcond
        · exact ih seen hs hpos'
        · rw [List.countP_cons]
          simp only [hkvk, decide_eq_true_eq, if_false, Nat.add_zero]
          refine ih (kv.1 :: seen) ?_ hpos'
          intro hmem
          rcases List.mem_cons.mp hmem with h | h
          · exact hkvk h.symm
          · exact hs h

theorem countP_collapse_event (seen : List MetricKey) (l : List (MetricKey × ℤ))
    (k : MetricKey) (hk : k.methodology = MetricMethodologyType.EVENT) :
    (collapse_person_combos_from seen l).countP (fun kv => decide (kv.1 = k))
      = l.countP (fun kv => decide (kv.1 = k)) := by
  induction l generalizing seen with
  | nil => rfl
  | cons kv rest ih =>
      unfold collapse_person_combos_from
      split_ifs with hcond
      · have hne : ¬ (kv.1 = k) := by
          intro h
          rw [h, hk] at hcond
          exact absurd hcond.1 (by simp)
        rw [List.countP_cons]
        simp only [hne, decide_eq_true_eq, if_false, Nat.add_zero]
        exact ih seen
      · rw [List.countP_cons, List.countP_cons, ih (kv.1 :: seen)]

theorem countP_rate_combinations_events (chars : List CharacteristicTuple)
    (periods : List ℕ) (events : List ReleaseEvent) (sc : String)
    (c : CharacteristicTuple) (m : MetricMethodologyType) (p : ℕ)
    (t : MetricKeyTemplate)
    (hsc : ∀ e ∈ events, ReleaseEvent.state_code e = sc)
    (hchars : chars.Nodup) (hper : periods.Nodup)
    (hc : c ∈ chars) (hm : m ∈ METHODOLOGIES) (hp : p ∈ periods)
    (ht : t ∈ return_type_templates) :
    ((events.flatMap (fun e => rate_combinations_for_event chars e periods)).countP
      (fun kv => decide (kv.1 = rate_metric_key sc c m p t))) = events.length := by
  induction events with
  | nil => rfl
  | cons e es ih =>
      rw [List.flatMap_cons, List.countP_append]
      have h1 : (rate_combinations_for_event chars e periods).countP
          (fun kv => decide (kv.1 = rate_metric_key sc c m p t)) = 1 := by
        have hone := countP_rate_combinations_for_event chars periods e c m p t
          hchars hper hc hm hp ht
        rwa [hsc e (List.mem_cons_self _ _)] at hone
      rw [h1, ih (fun e' he' => hsc e' (List.mem_cons_of_mem _ he'))]
      rw [List.length_cons]
      omega

/-- C4: when a cohort year holds more than one release event, the
per-person generator emits, per follow-up period, (RATE) metric type,
template and characteristic tuple, exactly one PERSON-methodology
combination — the duplicates are collapsed — while the EVENT-methodology
combination for that key is emitted once per event. -/
theorem person_combos_collapsed_in_cohort_year
    (chars : List CharacteristicTuple) (periods : List ℕ)
    (events : List ReleaseEvent) (sc : String)
    (c : CharacteristicTuple) (p : ℕ) (t : MetricKeyTemplate)
    (hmany : 1 < events.length)
    (hsc : ∀ e ∈ events, ReleaseEvent.state_code e = sc)
    (hchars : chars.Nodup) (hper : periods.Nodup)
    (hc : c ∈ chars) (hp : p ∈ periods) (ht : t ∈ return_type_templates) :
    ((rate_combinations_for_cohort_year chars events periods).countP
        (fun kv => decide
          (kv.1 = rate_metric_key sc c MetricMethodologyType.PERSON p t)) = 1)
    ∧ ((rate_combinations_for_cohort_year chars events periods).countP
        (fun kv => decide
          (kv.1 = rate_metric_key sc c MetricMethodologyType.EVENT p t))
      = events.length) := by
  unfold rate_combinations_for_cohort_year
  constructor
  · apply countP_collapse_first _ _ _ rfl (by simp)
    rw [countP_rate_combinations_events chars periods events sc c
      MetricMethodologyType.PERSON p t hsc hchars hper hc (by decide) hp ht]
    omega
  · rw [countP_collapse_event _ _ _ rfl]
    exact countP_rate_combinations_events chars periods events sc c
      MetricMethodologyType.EVENT p t hsc hchars hper hc (by decide) hp ht

/-- The recidivism event of
`test_map_recidivism_combinations_multiple_releases_in_year`. -/
def recidivism_event_1908 : RecidivismReleaseEvent :=
  { state_code := "CA"
    original_admission_date := some ⟨1905, 7, 19⟩
    release_date := some ⟨1908, 1, 19⟩
    release_facility := some "Hudson"
    county_of_residence := some "county"
    reincarceration_date := ⟨1908, 5, 12⟩
    reincarceration_facility := some "Upstate"
    return_type := ReincarcerationReturnType.NEW_ADMISSION
    from_supervision_type := Option.none
    source_violation_type := Option.none }

/-- The second (non-recidivism) release of that same cohort year. -/
def no_recidivism_event_1908 : NonRecidivismReleaseEvent :=
  { state_code := "CA"
    original_admission_date := some ⟨1908, 5, 12⟩
    release_date := some ⟨1908, 8, 19⟩
    release_facility := some "Upstate"
    county_of_residence := some "county" }

/-- Witness for C4 on the two releases of cohort year 1908: one collapsed
PERSON instance, two EVENT instances. -/
theorem person_combos_collapsed_in_cohort_year_witness :
    ((rate_combinations_for_cohort_year [sample_characteristics]
        [ReleaseEvent.recidivism recidivism_event_1908,
         ReleaseEvent.nonRecidivism no_recidivism_event_1908] [1]).countP
      (fun kv => decide (kv.1 = rate_metric_key "CA" sample_characteristics
        MetricMethodologyType.PERSON 1
        ⟨Option.none, Option.none, Option.none⟩)) = 1)
    ∧ ((rate_combinations_for_cohort_year [sample_characteristics]
        [ReleaseEvent.recidivism recidivism_event_1908,
         ReleaseEvent.nonRecidivism no_recidivism_event_1908] [1]).countP
      (fun kv => decide (kv.1 = rate_metric_key "CA" sample_characteristics
        MetricMethodologyType.EVENT 1
        ⟨Option.none, Option.none, Option.none⟩)) = 2) :=
  person_combos_collapsed_in_cohort_year [sample_characteristics] [1]
    [ReleaseEvent.recidivism recidivism_event_1908,
     ReleaseEvent.nonRecidivism no_recidivism_event_1908] "CA"
    sample_characteristics 1 ⟨Option.none, Option.none, Option.none⟩
    (by decide) (by decide) (by decide) (by decide) (by decide) (by decide)
    (by decide)

/- ## Demographic profile expansion and characteristic combinations -/

/-- Modelled from the spec: a `StatePerson`'s demographic inputs (§3). -/
structure StatePerson where
  person_id : ℕ
  birthdate : Option DateYMD
  gender : Option Gender
  races : List Race
  ethnicities : List Ethnicity
deriving DecidableEq, Repr

/-- Modelled from the spec: the per-dimension inclusion configuration (§6). -/
structure Inclusions where
  age_bucket : Bool
  gender : Bool
  race : Bool
  ethnicity : Bool
  release_facility : Bool
  stay_length_bucket : Bool
deriving DecidableEq, Repr

/-- Age in whole years at a given date. -/
def age_at (birthdate on_date : DateYMD) : ℕ :=
  on_date.year - birthdate.year - (if mdPrecedes on_date birthdate then 1 else 0)

/-- Modelled from the spec: the age bucket labels. -/
def age_bucket_label (age : ℕ) : String :=
  if age < 25 then "<25"
  else if age ≤ 29 then "25-29"
  else if age ≤ 34 then "30-34"
  else if age ≤ 39 then "35-39"
  else "40<"

/-- Modelled from the spec: `stay_length_from_event` (§4.2) — release date
minus original admission date in whole calendar months, `None` when either
date is missing. -/
def stay_length_from_event (event : ReleaseEvent) : Option ℤ :=
  match ReleaseEvent.original_admission_date event,
      ReleaseEvent.release_date event with
  | some a, some r =>
      some (12 * ((r.year : ℤ) - a.year) + ((r.month : ℤ) - a.month)
        - (if r.day < a.day then 1 else 0))
  | _, _ => Option.none

/-- Modelled from the spec: `stay_length_bucket` (§4.2) — `None` for
`None`, otherwise the half-open 12-month bucket label, lower edge
inclusive, `"120<"` from 120 months up. -/
def stay_length_bucket (total_months : Option ℤ) : Option String :=
  match total_months with
  | Option.none => Option.none
  | some m =>
      some (if m < 12 then "<12"
        else if m < 24 then "12-24"
        else if m < 36 then "24-36"
        else if m < 48 then "36-48"
        else if m < 60 then "48-60"
        else if m < 72 then "60-72"
        else if m < 84 then "72-84"
        else if m < 96 then "84-96"
        else if m < 108 then "96-108"
        else if m < 120 then "108-120"
        else "120<")

/-- The stay-length vectors of `test_stay_length_bucket` and
`test_stay_length_from_event_*`. -/
theorem stay_length_test_vectors :
    stay_length_bucket Option.none = Option.none
    ∧ stay_length_bucket (some 11) = some "<12"
    ∧ stay_length_bucket (some 12) = some "12-24"
    ∧ stay_length_bucket (some 120) = some "120<"
    ∧ stay_length_from_event (ReleaseEvent.nonRecidivism
        ⟨"CA", some ⟨2013, 6, 17⟩, some ⟨2014, 4, 15⟩, Option.none, Option.none⟩)
      = some 9
    ∧ stay_length_from_event (ReleaseEvent.nonRecidivism
        ⟨"NH", some ⟨2013, 6, 17⟩, some ⟨2014, 6, 16⟩, Option.none, Option.none⟩)
      = some 11
    ∧ stay_length_from_event (ReleaseEvent.nonRecidivism
        ⟨"TX", some ⟨2013, 6, 17⟩, some ⟨2014, 6, 17⟩, Option.none, Option.none⟩)
      = some 12
    ∧ stay_length_from_event (ReleaseEvent.nonRecidivism
        ⟨"HI", some ⟨2013, 6, 17⟩, some ⟨2014, 8, 11⟩, Option.none, Option.none⟩)
      = some 13
    ∧ stay_length_from_event (ReleaseEvent.nonRecidivism
        ⟨"MT", Option.none, some ⟨2014, 7, 11⟩, Option.none, Option.none⟩)
      = Option.none := by
  refine ⟨rfl, ?_, ?_, ?_, ?_, ?_, ?_, ?_, rfl⟩ <;> decide

/-- Modelled from the spec: the demographic profile expansion (§4.1) joined
with the per-event dimensions — the age bucket from the birthdate at the
release date, one tuple per distinct (race, ethnicity) pair (with a single
absent placeholder when a set is empty or the dimension is excluded), every
excluded dimension absent; the county dimension is absent here (its
duplication happens in `characteristic_combinations`) and `person_id` is
never set on demographic tuples. -/
def demographic_combinations (person : StatePerson) (event : ReleaseEvent)
    (inclusions : Inclusions) : List CharacteristicTuple :=
  let race_values : List (Option Race) :=
    if inclusions.race then
      (if person.races = [] then [Option.none] else person.races.dedup.map some)
    else [Option.none]
  let ethnicity_values : List (Option Ethnicity) :=
    if inclusions.ethnicity then
      (if person.ethnicities = [] then [Option.none]
       else person.ethnicities.dedup.map some)
    else [Option.none]
  let ab : Option String :=
    if inclusions.age_bucket then
      match person.birthdate, ReleaseEvent.release_date event with
      | some bd, some rd => some (age_bucket_label (age_at bd rd))
      | _, _ => Option.none
    else Option.none
  race_values.flatMap (fun r => ethnicity_values.map (fun et =>
    { age_bucket := ab
      gender := if inclusions.gender then person.gender else Option.none
      race := r
      ethnicity := et
      release_facility :=
        if inclusions.release_facility then ReleaseEvent.release_facility event
        else Option.none
      stay_length_bucket :=
        if inclusions.stay_length_bucket then
          stay_length_bucket (stay_length_from_event event)
        else Option.none
      county_of_residence := Option.none
      person_id := Option.none }))

/-- Modelled from the spec: the single person-level characteristic tuple,
carrying `person_id` and the county of residence (§3, §4.5). -/
def person_level_characteristics (person : StatePerson) (event : ReleaseEvent) :
    CharacteristicTuple :=
  { age_bucket := Option.none
    gender := Option.none
    race := Option.none
    ethnicity := Option.none
    release_facility := Option.none
    stay_length_bucket := Option.none
    county_of_residence := ReleaseEvent.county_of_residence event
    person_id := some person.person_id }

/-- Modelled from the spec: `characteristic_combinations` (§3 county
invariant, §4.1, §4.5), absent from `src/`: every demographic combination
is emitted twice — once with the county of residence populated and once
with it absent — and the single person-level tuple is appended once; the
`2 × n + 1` total is fixed by `test_characteristic_combinations` together
with `expected_metric_count_for_person_recidivism`. -/
def characteristic_combinations (person : StatePerson) (event : ReleaseEvent)
    (inclusions : Inclusions) : List CharacteristicTuple :=
  (demographic_combinations person event inclusions).flatMap (fun c =>
    [{ c with county_of_residence := ReleaseEvent.county_of_residence event }, c])
  ++ [person_level_characteristics person event]

theorem nodup_flatMap_map {α β γ : Type} (la : List α) (lb : List β)
    (g : α → β → γ) (ha : la.Nodup) (hb : lb.Nodup)
    (hinj : ∀ a a' b b', g a b = g a' b' → a = a' ∧ b = b') :
    (la.flatMap (fun a => lb.map (g a))).Nodup := by
  induction la with
  | nil => simp
  | cons a as ih =>
      rw [List.flatMap_cons]
      apply List.Nodup.append
      · exact hb.map (fun b b' h => (hinj a a b b' h).2)
      · exact ih (List.nodup_cons.mp ha).2
      · intro x hx hx'
        obtain ⟨b, _, rfl⟩ := List.mem_map.mp hx
        obtain ⟨a', ha', hx'⟩ := List.mem_flatMap.mp hx'
        obtain ⟨b', _, heq⟩ := List.mem_map.mp hx'
        exact (List.nodup_cons.mp ha).1 ((hinj a' a b' b heq).1 ▸ ha')

theorem demographic_combinations_nodup (person : StatePerson)
    (event : ReleaseEvent) (inclusions : Inclusions) :
    (demographic_combinations person event inclusions).Nodup := by
  unfold demographic_combinations
  dsimp only
  apply nodup_flatMap_map
  · split_ifs with h1 h2
    · simp
    · exact (List.nodup_dedup _).map (Option.some_injective _)
    · simp
  · split_ifs with h1 h2
    · simp
    · exact (List.nodup_dedup _).map (Option.some_injective _)
    · simp
  · intro r r' et et' h
    simp only [CharacteristicTuple.mk.injEq] at h
    exact ⟨h.2.2.1, h.2.2.2.1⟩

theorem demographic_combinations_fields (person : StatePerson)
    (event : ReleaseEvent) (inclusions : Inclusions) :
    ∀ c ∈ demographic_combinations person event inclusions,
      c.county_of_residence = Option.none ∧ c.person_id = Option.none := by
  intro c hc
  unfold demographic_combinations at hc
  simp only [List.mem_flatMap, List.mem_map] at hc
  obtain ⟨r, _, et, _, rfl⟩ := hc
  exact ⟨rfl, rfl⟩

theorem length_flatMap_two {α β : Type} (l : List α) (f : α → List β)
    (h : ∀ a ∈ l, (f a).length = 2) : (l.flatMap f).length = 2 * l.length := by
  induction l with
  | nil => rfl
  | cons a as ih =>
      rw [List.flatMap_cons, List.length_append, h a (List.mem_cons_self a as),
        ih (fun a' ha' => h a' (List.mem_cons_of_mem _ ha')), List.length_cons]
      omega

theorem tuple_ne_of_person_id {x y : CharacteristicTuple}
    (h : x.person_id ≠ y.person_id) : x ≠ y :=
  fun he => h (congrArg CharacteristicTuple.person_id he)

theorem tuple_ne_of_county {x y : CharacteristicTuple}
    (h : x.county_of_residence ≠ y.county_of_residence) : x ≠ y :=
  fun he => h (congrArg CharacteristicTuple.county_of_residence he)

theorem tuple_eq_of_withCounty_eq {c c0 : CharacteristicTuple} (x : Option String)
    (hco : c.county_of_residence = c0.county_of_residence)
    (h : ({ c with county_of_residence := x } : CharacteristicTuple)
        = { c0 with county_of_residence := x }) : c = c0 := by
  cases c; cases c0
  simp only [CharacteristicTuple.mk.injEq] at h hco ⊢
  tauto

/-- C6 (amended): with a populated county of residence on the event, every
demographic characteristic combination is emitted exactly twice — once with
the county dimension populated and once with it absent — doubling the
demographic output volume regardless of the inclusion configuration; but
the person-level combination is emitted exactly once, so the total output
is `2 × n + 1` rather than an exact doubling of everything. -/
theorem county_dimension_duplicated (person : StatePerson)
    (event : ReleaseEvent) (inclusions : Inclusions) (cty : String)
    (hcty : ReleaseEvent.county_of_residence event = some cty) :
    ((characteristic_combinations person event inclusions).length
        = 2 * (demographic_combinations person event inclusions).length + 1)
    ∧ (∀ c ∈ demographic_combinations person event inclusions,
        (characteristic_combinations person event inclusions).countP
          (fun c' => decide
            (c' = { c with county_of_residence := some cty })) = 1
        ∧ (characteristic_combinations person event inclusions).countP
            (fun c' => decide (c' = c)) = 1)
    ∧ (characteristic_combinations person event inclusions).countP
        (fun c' => decide
          (c' = person_level_characteristics person event)) = 1 := by
  have hfields := demographic_combinations_fields person event inclusions
  have hnd := demographic_combinations_nodup person event inclusions
  have hplid : (person_level_characteristics person event).person_id
      = some person.person_id := rfl
  unfold characteristic_combinations
  simp only [hcty]
  refine ⟨?_, ?_, ?_⟩
  · rw [List.length_append,
      length_flatMap_two (demographic_combinations person event inclusions)
        (fun c => [{ c with county_of_residence := some cty }, c])
        (fun a _ => rfl)]
    rfl
  · intro c0 hc0
    have hc0co := (hfields c0 hc0).1
    have hc0id := (hfields c0 hc0).2
    constructor
    · rw [List.countP_append, List.countP_cons, List.countP_nil]
      have hplne : ¬ (person_level_characteristics person event
          = ({ c0 with county_of_residence := some cty } : CharacteristicTuple)) := by
        apply tuple_ne_of_person_id
        show some person.person_id ≠ c0.person_id
        rw [hc0id]
        simp
      have hflat : ((demographic_combinations person event inclusions).flatMap
          (fun c => [{ c with county_of_residence := some cty }, c])).countP
          (fun c' => decide (c' = { c0 with county_of_residence := some cty })) = 1 := by
        apply countP_flatMap_single _ _ _ c0 hc0 hnd
        · intro c hc hne
          have h1 : ¬ (({ c with county_of_residence := some cty } : CharacteristicTuple)
              = { c0 with county_of_residence := some cty }) := by
            intro h
            exact hne (tuple_eq_of_withCounty_eq (some cty)
              ((hfields c hc).1.trans hc0co.symm) h)
          have h2 : ¬ (c = ({ c0 with county_of_residence := some cty } :
              CharacteristicTuple)) := by
            apply tuple_ne_of_county
            show c.county_of_residence ≠ some cty
            rw [(hfields c hc).1]
            simp
          rw [List.countP_cons, List.countP_cons, List.countP_nil]
          simp [h1, h2]
        · have h2 : ¬ (c0 = ({ c0 with county_of_residence := some cty } :
              CharacteristicTuple)) := by
            apply tuple_ne_of_county
            show c0.county_of_residence ≠ some cty
            rw [hc0co]
            simp
          rw [List.countP_cons, List.countP_cons, List.countP_nil]
          simp [h2]
      rw [hflat]
      simp [hplne]
    · rw [List.countP_append, List.countP_cons, List.countP_nil]
      have hplne : ¬ (person_level_characteristics person event = c0) := by
        apply tuple_ne_of_person_id
        show some person.person_id ≠ c0.person_id
        rw [hc0id]
        simp
      have hflat : ((demographic_combinations person event inclusions).flatMap
          (fun c => [{ c with county_of_residence := some cty }, c])).countP
          (fun c' => decide (c' = c0)) = 1 := by
        apply countP_flatMap_single _ _ _ c0 hc0 hnd
        · intro c hc hne
          have h1 : ¬ (({ c with county_of_residence := some cty } :
              CharacteristicTuple) = c0) := by
            apply tuple_ne_of_county
            show some cty ≠ c0.county_of_residence
            rw [hc0co]
            simp
          rw [List.countP_cons, List.countP_cons, List.countP_nil]
          simp [h1, hne]
        · have h1 : ¬ (({ c0 with county_of_residence := some cty } :
              CharacteristicTuple) = c0) := by
            apply tuple_ne_of_county
            show some cty ≠ c0.county_of_residence
            rw [hc0co]
            simp
          rw [List.countP_cons, List.countP_cons, List.countP_nil]
          simp [h1]
      rw [hflat]
      simp [hplne]
  · rw [List.countP_append, List.countP_cons, List.countP_nil]
    have hflat : ((demographic_combinations person event inclusions).flatMap
        (fun c => [{ c with county_of_residence := some cty }, c])).countP
        (fun c' => decide (c' = person_level_characteristics person event)) = 0 := by
      apply countP_flatMap_zero
      intro c hc
      have h1 : ¬ (({ c with county_of_residence := some cty } :
          CharacteristicTuple) = person_level_characteristics person event) := by
        apply tuple_ne_of_person_id
        show c.person_id ≠ some person.person_id
        rw [(hfields c hc).2]
        simp
      have h2 : ¬ (c = person_level_characteristics person event) := by
        apply tuple_ne_of_person_id
        show c.person_id ≠ some person.person_id
        rw [(hfields c hc).2]
        simp
      rw [List.countP_cons, List.countP_cons, List.countP_nil]
      simp [h1, h2]
    rw [hflat]
    simp

/-- The person used across the `map_recidivism_combinations` tests. -/
def sample_person : StatePerson :=
  { person_id := 12345
    birthdate := some ⟨1984, 8, 31⟩
    gender := some Gender.FEMALE
    races := [Race.WHITE]
    ethnicities := [Ethnicity.NOT_HISPANIC] }

/-- The recidivism event of `test_map_recidivism_combinations`. -/
def recidivism_event_2008 : RecidivismReleaseEvent :=
  { state_code := "CA"
    original_admission_date := some ⟨2005, 7, 19⟩
    release_date := some ⟨2008, 9, 19⟩
    release_facility := some "Hudson"
    county_of_residence := some "county"
    reincarceration_date := ⟨2014, 5, 12⟩
    reincarceration_facility := some "Upstate"
    return_type := ReincarcerationReturnType.NEW_ADMISSION
    from_supervision_type := Option.none
    source_violation_type := Option.none }

/-- The all-dimensions-included configuration (`ALL_INCLUSIONS_DICT`). -/
def ALL_INCLUSIONS : Inclusions :=
  { age_bucket := true
    gender := true
    race := true
    ethnicity := true
    release_facility := true
    stay_length_bucket := true }

/-- Witness for C6 (amended) at the concrete person and event of
`test_characteristic_combinations`. -/
theorem county_dimension_duplicated_witness :
    (characteristic_combinations sample_person
        (ReleaseEvent.recidivism recidivism_event_2008) ALL_INCLUSIONS).length
      = 2 * (demographic_combinations sample_person
          (ReleaseEvent.recidivism recidivism_event_2008) ALL_INCLUSIONS).length
        + 1 :=
  (county_dimension_duplicated sample_person
    (ReleaseEvent.recidivism recidivism_event_2008) ALL_INCLUSIONS "county"
    (by decide)).1

/-- C6 counterexample: for the person and event of
`test_characteristic_combinations`, the combination generator's output has
three members — the doubled demographic tuple plus a person-level tuple
that occurs exactly once — so it is false that every emitted combination is
produced exactly twice (the total volume `2 × n + 1` is odd, not doubled). -/
theorem county_doubling_counterexample :
    (person_level_characteristics sample_person
        (ReleaseEvent.recidivism recidivism_event_2008)
      ∈ characteristic_combinations sample_person
          (ReleaseEvent.recidivism recidivism_event_2008) ALL_INCLUSIONS)
    ∧ ((characteristic_combinations sample_person
          (ReleaseEvent.recidivism recidivism_event_2008) ALL_INCLUSIONS).countP
        (fun c' => decide (c' = person_level_characteristics sample_person
          (ReleaseEvent.recidivism recidivism_event_2008))) = 1)
    ∧ (characteristic_combinations sample_person
          (ReleaseEvent.recidivism recidivism_event_2008) ALL_INCLUSIONS).length
        = 3 := by
  refine ⟨by decide, by decide, by decide⟩
